import Mathlib

/-!
Verification development for the two cereal-dashboard scripts
`src/Preswald-Assessment/hello.py` (variant A) and
`src/preswald-assessment-final/hello.py` (variant B).

Modelling conventions:
* A table is a `List Row`, order-preserving as in a pandas DataFrame.
* A numeric cell is `Option ℚ`: `some q` is a present, parseable finite value,
  `none` is a missing or unparseable cell (the value after
  `pd.to_numeric(..., errors="coerce")`, where parse failure yields NaN).
* Derived string columns (`manufacturer_full`, `type_full`) are
  `Option String`, `none` standing for the NaN a pandas `.map` lookup miss
  produces.
* Pandas boolean filtering treats a comparison with a missing value as
  `False` (the row is dropped), which the `cell*` helpers reproduce.
-/

set_option autoImplicit false

/-- A numeric cell of the data frame after `pd.to_numeric(..., errors="coerce")`:
`some q` is a parsed finite value, `none` is missing / unparseable (NaN). -/
abbrev Cell := Option ℚ

/-- One row of the cereal table: the source columns (`name`, `mfr`, `type`,
thirteen numeric fields) plus the two derived lookup columns. -/
structure Row where
  name : String
  mfr : String
  type : String
  calories : Cell
  protein : Cell
  fat : Cell
  sodium : Cell
  fiber : Cell
  carbo : Cell
  sugars : Cell
  potass : Cell
  vitamins : Cell
  shelf : Cell
  weight : Cell
  cups : Cell
  rating : Cell
  manufacturer_full : Option String
  type_full : Option String
deriving DecidableEq, Repr

/-- The fixed manufacturer lookup table (`mfr_map` in both scripts);
an unknown code yields `none`, as pandas `.map` yields NaN. -/
def mfr_map (s : String) : Option String :=
  match s with
  | "A" => some "American Home Food Products"
  | "G" => some "General Mills"
  | "K" => some "Kelloggs"
  | "N" => some "Nabisco"
  | "P" => some "Post"
  | "Q" => some "Quaker Oats"
  | "R" => some "Ralston Purina"
  | _ => none

/-- The fixed hot/cold lookup table (`type_map` in both scripts). -/
def type_map (s : String) : Option String :=
  match s with
  | "C" => some "Cold"
  | "H" => some "Hot"
  | _ => none

/-- The column-assignment steps `df["manufacturer_full"] = df["mfr"].map(mfr_map)`
and `df["type_full"] = df["type"].map(type_map)` shared by both loaders. -/
def addDerived (r : Row) : Row :=
  { r with manufacturer_full := mfr_map r.mfr, type_full := type_map r.type }

/-- Loader of variant A (`src/Preswald-Assessment/hello.py`, `load_data`):
coerces only `carbo`, `sugars`, `potass` and drops rows missing any of those
three, then adds the derived columns.  In the model the cells are already the
post-coercion values, so the coercion itself is the identity. -/
def load_dataA (src : List Row) : List Row :=
  (src.filter fun r => r.carbo.isSome && r.sugars.isSome && r.potass.isSome).map addDerived

/-- Completeness of all thirteen numeric columns required by variant B's
`dropna(subset=numeric_cols)`. -/
def numericComplete (r : Row) : Bool :=
  r.calories.isSome && r.protein.isSome && r.fat.isSome && r.sodium.isSome &&
  r.fiber.isSome && r.carbo.isSome && r.sugars.isSome && r.potass.isSome &&
  r.vitamins.isSome && r.shelf.isSome && r.weight.isSome && r.cups.isSome &&
  r.rating.isSome

/-- Loader of variant B (`src/preswald-assessment-final/hello.py`, `load_data`):
coerces all thirteen numeric columns, drops rows missing any of them, then
adds the derived columns. -/
def load_dataB (src : List Row) : List Row :=
  (src.filter numericComplete).map addDerived

/-- Pandas `df["c"] > 0` on a nullable column: missing compares as `False`. -/
def cellPos (c : Cell) : Bool :=
  match c with
  | some q => decide (0 < q)
  | none => false

/-- Pandas `df["c"] >= t`: missing compares as `False`. -/
def cellGe (c : Cell) (t : ℚ) : Bool :=
  match c with
  | some q => decide (t ≤ q)
  | none => false

/-- One cell of `df.replace(-1, pd.NA)`: a cell equal to -1 becomes missing. -/
def replaceSentinel (c : Cell) : Cell :=
  if c = some (-1) then none else c

/-- `df.replace(-1, pd.NA)` on one row: applied to every numeric cell.
The string columns are unaffected (a string never equals the number -1). -/
def replaceRow (r : Row) : Row :=
  { r with
    calories := replaceSentinel r.calories
    protein := replaceSentinel r.protein
    fat := replaceSentinel r.fat
    sodium := replaceSentinel r.sodium
    fiber := replaceSentinel r.fiber
    carbo := replaceSentinel r.carbo
    sugars := replaceSentinel r.sugars
    potass := replaceSentinel r.potass
    vitamins := replaceSentinel r.vitamins
    shelf := replaceSentinel r.shelf
    weight := replaceSentinel r.weight
    cups := replaceSentinel r.cups
    rating := replaceSentinel r.rating }

/-- `df.replace(-1, pd.NA, inplace=True)` applied table-wide. -/
def replaceTable (df : List Row) : List Row :=
  df.map replaceRow

/-- Analyzer table transformation of variant A (`analyze_data`, lines 52-54):
`df = df[df['calories'] > 0]`, then `df = df[df['rating'] > 0]`, then
`df.replace(-1, pd.NA, inplace=True)`. -/
def analyze_dataA (df : List Row) : List Row :=
  replaceTable ((df.filter fun r => cellPos r.calories).filter fun r => cellPos r.rating)

/-- Analyzer table transformation of variant B (`analyze_data`, lines 54-55):
`df = df[(df["calories"] > 0) & (df["rating"] > 0)]`, then
`df.replace(-1, pd.NA, inplace=True)`. -/
def analyze_dataB (df : List Row) : List Row :=
  replaceTable (df.filter fun r => cellPos r.calories && cellPos r.rating)

/-- A row of the threshold-filtered view: projection to
(name, manufacturer_full, rating). -/
structure FilteredRow where
  name : String
  manufacturer_full : Option String
  rating : Cell
deriving DecidableEq, Repr

/-- The projection `[["name", "manufacturer_full", "rating"]]`. -/
def projFiltered (r : Row) : FilteredRow :=
  ⟨r.name, r.manufacturer_full, r.rating⟩

/-- Threshold-filter step of variant B (`analyze_data`, line 153):
`filtered = df[df["rating"] >= rating_cutoff][["name", "manufacturer_full", "rating"]]`.
Selection and projection on the analyzed table, in the table's own order
(no sorting in the source). -/
def thresholdViewB (df : List Row) (cutoff : ℚ) : List FilteredRow :=
  (df.filter fun r => cellGe r.rating cutoff).map projFiltered

/-- Alert levels accepted by the preswald `alert(..., level=...)` sink. -/
inductive Level where
  | info
  | success
  | warning
  | error
deriving DecidableEq, Repr

/-- An alert emitted to the presentation sink. -/
structure Alert where
  level : Level
  message : String
deriving DecidableEq, Repr

/-- Threshold-step alert of variant A (`analyze_data`, lines 126-130), as a
function of the match count and the cutoff: a nonempty result gives a success
alert (with plural phrasing regardless of the count), an empty result gives a
warning. -/
def thresholdAlertA (n cutoff : Nat) : Alert :=
  if 0 < n then
    ⟨Level.success, s!"🍽️ There are {n} cereals rated above {cutoff}."⟩
  else
    ⟨Level.warning, "😕 No cereals found above that rating."⟩

/-- Threshold-step alert of variant B (`analyze_data`, lines 156-159): count 1
gives the singular phrasing, any other count (including 0) the plural one;
the level is always success. -/
def thresholdAlertB (n cutoff : Nat) : Alert :=
  if n = 1 then
    ⟨Level.success, s!"🥣 There is {n} cereal rated above {cutoff}."⟩
  else
    ⟨Level.success, s!"🥣 There are {n} cereals rated above {cutoff}."⟩

/-- The distinct values of a column, in order of first appearance. -/
def distinctKeys (xs : List String) : List String :=
  xs.foldl (fun acc x => if x ∈ acc then acc else acc ++ [x]) []

/-- Insertion step for sorting (value, count) pairs by descending count. -/
def insertByCount (p : String × Nat) : List (String × Nat) → List (String × Nat)
  | [] => [p]
  | q :: rest => if q.2 < p.2 then p :: q :: rest else q :: insertByCount p rest

/-- Sort (value, count) pairs by descending count (stable insertion sort). -/
def sortByCount (l : List (String × Nat)) : List (String × Nat) :=
  l.foldr insertByCount []

/-- Pandas `Series.value_counts()`: frequency of each distinct non-missing
value, ordered by descending frequency. -/
def value_counts (xs : List (Option String)) : List (String × Nat) :=
  let vs := xs.filterMap id
  sortByCount ((distinctKeys vs).map fun v => (v, vs.count v))

/-- Categorical summarization of variant A (`analyze_data`, lines 87-91):
`df[col].value_counts().reset_index()` rendered under the title
"Top 10 '{col}' Values" — note the source applies no truncation. -/
def catCountsA (xs : List (Option String)) : List (String × Nat) :=
  value_counts xs

/-- Categorical summarization of variant B (`analyze_data`, lines 123-127):
`counts.head(10)` — value counts truncated to the top 10 entries. -/
def catCountsB (xs : List (Option String)) : List (String × Nat) :=
  (value_counts xs).take 10

/-- Pandas column mean with `skipna` (the default): the mean of the present
values, or missing when the group has no present value. -/
def cellsMean (xs : List Cell) : Cell :=
  let vs := xs.filterMap id
  if vs.length = 0 then none else some (vs.sum / (vs.length : ℚ))

/-- Rounding to 2 decimal places (`.round(2)`), with halves rounded up;
the claims under study never hit a tie, where numpy would round to even. -/
def round2 (q : ℚ) : ℚ :=
  ((round (q * 100) : ℤ) : ℚ) / 100

/-- `round2` lifted to a nullable cell. -/
def round2Cell (c : Cell) : Cell :=
  c.map round2

/-- Pandas `df.dropna()` keeps a row only when no column at all is missing;
the three plain string columns are never missing in the model. -/
def rowComplete (r : Row) : Bool :=
  numericComplete r && r.manufacturer_full.isSome && r.type_full.isSome

/-- Insertion step for sorting group keys ascending (pandas `groupby`
sorts its keys by default). -/
def insertKeyAsc (k : String) : List String → List String
  | [] => [k]
  | q :: rest => if k.data < q.data then k :: q :: rest else q :: insertKeyAsc k rest

/-- Sort group keys ascending. -/
def sortKeysAsc (l : List String) : List String :=
  l.foldr insertKeyAsc []

/-- The group keys of `df.groupby("type_full")`: the distinct non-missing
`type_full` values, sorted; rows with a missing key are excluded. -/
def groupKeys (df : List Row) : List String :=
  sortKeysAsc (distinctKeys (df.filterMap fun r => r.type_full))

/-- One row of the grouped-mean projection `avg_df`. -/
structure GroupRow where
  type_full : String
  calories : Cell
  protein : Cell
  fat : Cell
deriving DecidableEq, Repr

/-- The per-group means of calories, protein and fat for the given key. -/
def groupMean (df : List Row) (k : String) : GroupRow :=
  let g := df.filter fun r => r.type_full = some k
  ⟨k, cellsMean (g.map fun r => r.calories),
      cellsMean (g.map fun r => r.protein),
      cellsMean (g.map fun r => r.fat)⟩

/-- Grouped aggregation of variant A (`visualize_data`, line 153):
`df.dropna().groupby('type_full')[['calories', 'protein', 'fat']].mean()` —
every row with any missing field is dropped from the computation and the
means are not rounded. -/
def avg_dfA (df : List Row) : List GroupRow :=
  let d := df.filter rowComplete
  (groupKeys d).map (groupMean d)

/-- Round all three means of a group row. -/
def roundGroup (g : GroupRow) : GroupRow :=
  ⟨g.type_full, round2Cell g.calories, round2Cell g.protein, round2Cell g.fat⟩

/-- Grouped aggregation of variant B (`visualize_data`, lines 195-201):
`df.groupby("type_full")[["calories", "protein", "fat"]].mean().round(2)` —
missing cells are skipped per column, and the means are rounded to 2
decimal places. -/
def avg_dfB (df : List Row) : List GroupRow :=
  (groupKeys df).map fun k => roundGroup (groupMean df k)

/-- Outcome of one statistics / table-rendering step: it either completes or
raises with a message. -/
inductive StepOutcome where
  | ok
  | fail (msg : String)
deriving DecidableEq, Repr

/-- Running one unguarded step: a raise propagates, aborting the sequel. -/
def runStep (s : StepOutcome) (rest : Except String (List Alert)) :
    Except String (List Alert) :=
  match s with
  | .fail m => .error m
  | .ok => rest

/-- The statistics / table-rendering sequence of variant A's `analyze_data`
(lines 58-103) as a function of the five step outcomes: only the first step
(column types, lines 60-68) sits in a `try/except` that converts the failure
into an error alert; the dataset preview, summary statistics, value counts
and missing-value steps are unguarded, so their failures propagate. -/
def analyzerStepsA (s1 s2 s3 s4 s5 : StepOutcome) : Except String (List Alert) :=
  let a1 : List Alert :=
    match s1 with
    | .ok => []
    | .fail m => [⟨Level.error, s!"Error displaying column types: {m}"⟩]
  runStep s2 (runStep s3 (runStep s4 (runStep s5 (.ok a1))))

/-- The statistics / table-rendering sequence of variant B's `analyze_data`
(lines 98-138): no step is guarded, every failure propagates. -/
def analyzerStepsB (s1 s2 s3 s4 s5 : StepOutcome) : Except String (List Alert) :=
  runStep s1 (runStep s2 (runStep s3 (runStep s4 (runStep s5 (.ok [])))))

/-- Sort key for the SQL `ORDER BY rating DESC` (rows reaching the sort all
have a present rating, the `WHERE` clause having excluded NULLs). -/
def ratingVal (c : Cell) : ℚ :=
  c.getD 0

/-- Insertion step for sorting filtered rows by descending rating. -/
def insertRatingDesc (r : FilteredRow) : List FilteredRow → List FilteredRow
  | [] => [r]
  | q :: rest =>
    if ratingVal q.rating < ratingVal r.rating then r :: q :: rest
    else q :: insertRatingDesc r rest

/-- Sort filtered rows by descending rating (stable insertion sort). -/
def sortRatingDesc (l : List FilteredRow) : List FilteredRow :=
  l.foldr insertRatingDesc []

/-- Modelled from the spec: the SQL executor behind `preswald.query` is an
external collaborator (spec section 6, query interface) and is not in this
repository.  Variant A's threshold step (`analyze_data`, lines 117-124)
assembles `SELECT name, manufacturer_full, rating FROM sample_csv WHERE
rating >= cutoff ORDER BY rating DESC` and runs it against the named source
table `sample_csv` — not against the analyzed frame. -/
def thresholdViewA (sample_csv : List Row) (cutoff : ℚ) : List FilteredRow :=
  sortRatingDesc ((sample_csv.filter fun r => cellGe r.rating cutoff).map projFiltered)

/-- Statement vocabulary: the cell holds a present, strictly positive value. -/
def cellPosP (c : Cell) : Prop :=
  ∃ q : ℚ, c = some q ∧ 0 < q

/-- Statement vocabulary: every present rating in the table is at most `t`. -/
def allRatingsLe (df : List Row) (t : ℚ) : Bool :=
  df.all fun r =>
    match r.rating with
    | some q => decide (q ≤ t)
    | none => true

/-- A fully populated sample row (Kelloggs, cold, calories 100, rating 50). -/
def baseRow : Row where
  name := "base"
  mfr := "K"
  type := "C"
  calories := some 100
  protein := some 3
  fat := some 1
  sodium := some 200
  fiber := some 2
  carbo := some 14
  sugars := some 7
  potass := some 90
  vitamins := some 25
  shelf := some 2
  weight := some 1
  cups := some 1
  rating := some 50
  manufacturer_full := none
  type_full := none

/-- A row whose calories cell is missing but whose carbo, sugars and potass
cells are present. -/
def rowNoCalories : Row :=
  { baseRow with name := "no-calories", calories := none }

/-- A surviving row with a low rating, listed before a higher-rated one. -/
def rowRatingLow : Row :=
  { baseRow with name := "low", rating := some 10 }

/-- A surviving row with a high rating, listed after a lower-rated one. -/
def rowRatingHigh : Row :=
  { baseRow with name := "high", rating := some 50 }

/-- A row whose rating exceeds the slider scale. -/
def rowRating150 : Row :=
  { baseRow with name := "overflow", rating := some 150 }

/-- First cold row of the grouped-mean example (calories 100). -/
def rowCold1 : Row :=
  { baseRow with name := "cold1", calories := some 100 }

/-- Second cold row of the grouped-mean example (calories 120). -/
def rowCold2 : Row :=
  { baseRow with name := "cold2", calories := some 120 }

/-- The hot row of the grouped-mean example (calories 90). -/
def rowHot1 : Row :=
  { baseRow with name := "hot1", type := "H", calories := some 90 }

/-- The grouped-mean example table of the claim: two cold rows with calories
100 and 120 and one hot row with calories 90. -/
def srcGrouped : List Row :=
  [rowCold1, rowCold2, rowHot1]

/-- A cold row with calories 100. -/
def rowThird1 : Row :=
  { baseRow with name := "c1", calories := some 100 }

/-- A cold row with calories 101. -/
def rowThird2 : Row :=
  { baseRow with name := "c2", calories := some 101 }

/-- Another cold row with calories 101. -/
def rowThird3 : Row :=
  { baseRow with name := "c3", calories := some 101 }

/-- Three cold rows with calories 100, 101, 101: their mean 302/3 is not a
two-decimal value. -/
def srcGroupedThirds : List Row :=
  [rowThird1, rowThird2, rowThird3]

/-- A categorical column with eleven distinct values. -/
def elevenNames : List (Option String) :=
  [some "n01", some "n02", some "n03", some "n04", some "n05", some "n06",
   some "n07", some "n08", some "n09", some "n10", some "n11"]

theorem cellPos_iff {c : Cell} : cellPos c = true ↔ cellPosP c := by
  cases c <;> simp [cellPos, cellPosP]

theorem replaceSentinel_of_pos {c : Cell} (h : cellPosP c) : replaceSentinel c = c := by
  obtain ⟨q, rfl, hq⟩ := h
  have hne : q ≠ -1 := by intro e; rw [e] at hq; norm_num at hq
  simp [replaceSentinel, hne]

theorem replaceSentinel_idem (c : Cell) :
    replaceSentinel (replaceSentinel c) = replaceSentinel c := by
  by_cases h : c = some (-1) <;> simp [replaceSentinel, h]

theorem replaceRow_idem (r : Row) : replaceRow (replaceRow r) = replaceRow r := by
  simp [replaceRow, replaceSentinel_idem]

theorem mem_analyze_dataA {df : List Row} {r : Row} (h : r ∈ analyze_dataA df) :
    ∃ r', r' ∈ df ∧ cellPosP r'.calories ∧ cellPosP r'.rating ∧ r = replaceRow r' := by
  obtain ⟨r', hr', rfl⟩ := List.mem_map.mp h
  obtain ⟨hmem2, hrat⟩ := List.mem_filter.mp hr'
  obtain ⟨hmem, hcal⟩ := List.mem_filter.mp hmem2
  exact ⟨r', hmem, cellPos_iff.mp hcal, cellPos_iff.mp hrat, rfl⟩

theorem mem_analyze_dataB {df : List Row} {r : Row} (h : r ∈ analyze_dataB df) :
    ∃ r', r' ∈ df ∧ cellPosP r'.calories ∧ cellPosP r'.rating ∧ r = replaceRow r' := by
  obtain ⟨r', hr', rfl⟩ := List.mem_map.mp h
  obtain ⟨hmem, hboth⟩ := List.mem_filter.mp hr'
  obtain ⟨hcal, hrat⟩ := Bool.and_eq_true_iff.mp hboth
  exact ⟨r', hmem, cellPos_iff.mp hcal, cellPos_iff.mp hrat, rfl⟩

theorem replaceRow_calories_of_pos {r : Row} (h : cellPosP r.calories) :
    (replaceRow r).calories = r.calories :=
  replaceSentinel_of_pos h

theorem replaceRow_rating_of_pos {r : Row} (h : cellPosP r.rating) :
    (replaceRow r).rating = r.rating :=
  replaceSentinel_of_pos h

theorem analyzeA_pos {df : List Row} {r : Row} (h : r ∈ analyze_dataA df) :
    cellPosP r.calories ∧ cellPosP r.rating := by
  obtain ⟨r', _, hcal, hrat, rfl⟩ := mem_analyze_dataA h
  rw [replaceRow_calories_of_pos hcal, replaceRow_rating_of_pos hrat]
  exact ⟨hcal, hrat⟩

theorem analyzeB_pos {df : List Row} {r : Row} (h : r ∈ analyze_dataB df) :
    cellPosP r.calories ∧ cellPosP r.rating := by
  obtain ⟨r', _, hcal, hrat, rfl⟩ := mem_analyze_dataB h
  rw [replaceRow_calories_of_pos hcal, replaceRow_rating_of_pos hrat]
  exact ⟨hcal, hrat⟩

/-- C1 (amended): every row surviving variant B's Loader has a present,
parseable value in all thirteen listed numeric columns; variant A's Loader
only guarantees this for the carbohydrate, sugars and potassium columns, so a
row missing any other listed numeric column still survives it. -/
theorem load_data_numeric_complete (src : List Row) (r : Row) :
    (r ∈ load_dataB src → numericComplete r = true) ∧
    (r ∈ load_dataA src →
      r.carbo.isSome = true ∧ r.sugars.isSome = true ∧ r.potass.isSome = true) := by
  constructor
  · intro h
    obtain ⟨r', hr', rfl⟩ := List.mem_map.mp h
    exact (List.mem_filter.mp hr').2
  · intro h
    obtain ⟨r', hr', rfl⟩ := List.mem_map.mp h
    have h3 := (List.mem_filter.mp hr').2
    simp only [Bool.and_eq_true] at h3
    exact ⟨h3.1.1, h3.1.2, h3.2⟩

/-- Witness for C1 (amended) at a concrete one-row table. -/
theorem load_data_numeric_complete_witness :
    numericComplete (addDerived baseRow) = true :=
  (load_data_numeric_complete [baseRow] (addDerived baseRow)).1 (by decide)

/-- C1 counterexample: a row with a missing calories cell but present carbo,
sugars and potass cells survives variant A's Loader with its calories cell
still missing, refuting completeness of all thirteen listed columns. -/
theorem load_dataA_incomplete_cex :
    load_dataA [rowNoCalories] = [addDerived rowNoCalories] ∧
    (addDerived rowNoCalories).calories = none ∧
    numericComplete (addDerived rowNoCalories) = false := by
  decide

/-- C4: every row of either Analyzer's output table has a present calories
value strictly greater than 0 and a present rating value strictly greater
than 0. -/
theorem analyze_data_pos (df : List Row) (r : Row) :
    (r ∈ analyze_dataA df → cellPosP r.calories ∧ cellPosP r.rating) ∧
    (r ∈ analyze_dataB df → cellPosP r.calories ∧ cellPosP r.rating) :=
  ⟨fun h => analyzeA_pos h, fun h => analyzeB_pos h⟩

/-- Witness for C4 at a concrete one-row table. -/
theorem analyze_data_pos_witness :
    cellPosP (replaceRow baseRow).calories ∧ cellPosP (replaceRow baseRow).rating :=
  (analyze_data_pos [baseRow] (replaceRow baseRow)).1 (by decide)

/-- C5: the table-wide sentinel normalization (every cell equal to -1 becomes
the missing marker) is idempotent. -/
theorem replaceTable_idem (df : List Row) :
    replaceTable (replaceTable df) = replaceTable df := by
  simp [replaceTable, List.map_map, Function.comp_def, replaceRow_idem]

/-- C10: in either Analyzer's output table the calories and rating cells are
never the missing marker — the strict positivity filter runs before the
-1-to-missing replacement, so no surviving cell equals -1 there. -/
theorem analyze_data_not_missing (df : List Row) (r : Row) :
    (r ∈ analyze_dataA df → r.calories ≠ none ∧ r.rating ≠ none) ∧
    (r ∈ analyze_dataB df → r.calories ≠ none ∧ r.rating ≠ none) := by
  constructor <;> intro h
  · obtain ⟨⟨q, hq, _⟩, ⟨p, hp, _⟩⟩ := analyzeA_pos h
    exact ⟨by rw [hq]; exact Option.some_ne_none q, by rw [hp]; exact Option.some_ne_none p⟩
  · obtain ⟨⟨q, hq, _⟩, ⟨p, hp, _⟩⟩ := analyzeB_pos h
    exact ⟨by rw [hq]; exact Option.some_ne_none q, by rw [hp]; exact Option.some_ne_none p⟩

/-- Witness for C10 at a concrete one-row table. -/
theorem analyze_data_not_missing_witness :
    (replaceRow baseRow).calories ≠ none ∧ (replaceRow baseRow).rating ≠ none :=
  (analyze_data_not_missing [baseRow] (replaceRow baseRow)).1 (by decide)

/-- C2 (amended): for every analyzed table and every threshold, variant B's
threshold-filter step returns exactly the rows with rating ≥ threshold,
projected to (name, manufacturer_full, rating), preserving the analyzed
table's own row order (the step applies no descending sort). -/
theorem thresholdViewB_select_project (df : List Row) (cutoff : ℚ) :
    (thresholdViewB df cutoff).Sublist (df.map projFiltered) ∧
    (∀ fr ∈ thresholdViewB df cutoff, cellGe fr.rating cutoff = true) ∧
    (∀ r ∈ df, cellGe r.rating cutoff = true →
      projFiltered r ∈ thresholdViewB df cutoff) := by
  refine ⟨?_, ?_, ?_⟩
  · exact (List.filter_sublist df).map projFiltered
  · intro fr hfr
    obtain ⟨r, hr, rfl⟩ := List.mem_map.mp hfr
    exact (List.mem_filter.mp hr).2
  · intro r hr hge
    exact List.mem_map.mpr ⟨r, List.mem_filter.mpr ⟨hr, hge⟩, rfl⟩

/-- Witness for C2 (amended) at a concrete one-row table and threshold 0. -/
theorem thresholdViewB_select_project_witness :
    projFiltered baseRow ∈ thresholdViewB [baseRow] 0 :=
  (thresholdViewB_select_project [baseRow] 0).2.2 baseRow (by decide) (by decide)

/-- C2 counterexample: at threshold 0 on an analyzed table that lists a
rating-10 row before a rating-50 row, variant B's view keeps that order, so
the view is not sorted by rating in descending order. -/
theorem thresholdViewB_unsorted_cex :
    ¬ List.Pairwise
        (fun a b : FilteredRow => ratingVal b.rating ≤ ratingVal a.rating)
        (thresholdViewB (analyze_dataB (load_dataB [rowRatingLow, rowRatingHigh])) 0) := by
  decide

/-- C3 (amended): through variant B's pipeline, the threshold view at 0
equals the projection of the entire analyzed table; the view at threshold 101
is empty provided every rating in the analyzed table is at most 100 (a source
rating above 100 would otherwise survive to threshold 101). -/
theorem thresholdViewB_bounds (src : List Row) :
    thresholdViewB (analyze_dataB (load_dataB src)) 0
      = (analyze_dataB (load_dataB src)).map projFiltered ∧
    (allRatingsLe (analyze_dataB (load_dataB src)) 100 = true →
      thresholdViewB (analyze_dataB (load_dataB src)) 101 = []) := by
  constructor
  · unfold thresholdViewB
    congr 1
    apply List.filter_eq_self.mpr
    intro r hr
    obtain ⟨q, hq, hqpos⟩ := (analyzeB_pos hr).2
    rw [hq]
    simpa [cellGe] using le_of_lt hqpos
  · intro hall
    have hnil : (analyze_dataB (load_dataB src)).filter
        (fun r => cellGe r.rating 101) = [] := by
      apply List.filter_eq_nil_iff.mpr
      intro r hr
      obtain ⟨q, hq, _⟩ := (analyzeB_pos hr).2
      have hb := List.all_eq_true.mp hall r hr
      rw [hq] at hb
      simp only [decide_eq_true_eq] at hb
      rw [hq]
      simp [cellGe]
      linarith
    unfold thresholdViewB
    rw [hnil, List.map_nil]

/-- Witness for C3 (amended): with every rating at most 100 the view at
threshold 101 is empty. -/
theorem thresholdViewB_bounds_witness :
    thresholdViewB (analyze_dataB (load_dataB [baseRow])) 101 = [] :=
  (thresholdViewB_bounds [baseRow]).2 (by decide)

/-- C3 counterexample: a source row with rating 150 survives both stages and
satisfies rating ≥ 101, so the view at threshold 101 is not empty for that
source table. -/
theorem thresholdViewB_101_nonempty_cex :
    thresholdViewB (analyze_dataB (load_dataB [rowRating150])) 101 ≠ [] := by
  decide

theorem cellsMean_one (a : ℚ) : cellsMean [some a] = some a := by
  simp [cellsMean]

theorem cellsMean_pair (a b : ℚ) : cellsMean [some a, some b] = some ((a + b) / 2) := by
  simp [cellsMean]

theorem cellsMean_triple (a b c : ℚ) :
    cellsMean [some a, some b, some c] = some ((a + b + c) / 3) := by
  simp [cellsMean, add_assoc]

theorem round2_eval (q : ℚ) (z : ℤ) (h1 : (z : ℚ) ≤ q * 100 + 1/2)
    (h2 : q * 100 + 1/2 < z + 1) : round2 q = (z : ℚ) / 100 := by
  unfold round2
  rw [round_eq, Int.floor_eq_iff.mpr ⟨h1, h2⟩]

theorem round2_mul_hundred_den (x : ℚ) : (round2 x * 100).den = 1 := by
  unfold round2
  have h : ((round (x * 100) : ℤ) : ℚ) / 100 * 100 = ((round (x * 100) : ℤ) : ℚ) := by
    field_simp
  rw [h]
  exact Rat.den_intCast _

theorem groupMeanCold :
    groupMean [addDerived rowCold1, addDerived rowCold2, addDerived rowHot1] "Cold"
      = ⟨"Cold", some 110, some 3, some 1⟩ := by
  simp only [groupMean]
  rw [show List.filter (fun r => decide (r.type_full = some "Cold"))
        [addDerived rowCold1, addDerived rowCold2, addDerived rowHot1]
      = [addDerived rowCold1, addDerived rowCold2] from by decide]
  rw [show List.map (fun r => r.calories) [addDerived rowCold1, addDerived rowCold2]
      = [some (100:ℚ), some 120] from by decide]
  rw [show List.map (fun r => r.protein) [addDerived rowCold1, addDerived rowCold2]
      = [some (3:ℚ), some 3] from by decide]
  rw [show List.map (fun r => r.fat) [addDerived rowCold1, addDerived rowCold2]
      = [some (1:ℚ), some 1] from by decide]
  rw [cellsMean_pair, cellsMean_pair, cellsMean_pair]
  norm_num

theorem groupMeanHot :
    groupMean [addDerived rowCold1, addDerived rowCold2, addDerived rowHot1] "Hot"
      = ⟨"Hot", some 90, some 3, some 1⟩ := by
  simp only [groupMean]
  rw [show List.filter (fun r => decide (r.type_full = some "Hot"))
        [addDerived rowCold1, addDerived rowCold2, addDerived rowHot1]
      = [addDerived rowHot1] from by decide]
  rw [show List.map (fun r => r.calories) [addDerived rowHot1]
      = [some (90:ℚ)] from by decide]
  rw [show List.map (fun r => r.protein) [addDerived rowHot1]
      = [some (3:ℚ)] from by decide]
  rw [show List.map (fun r => r.fat) [addDerived rowHot1]
      = [some (1:ℚ)] from by decide]
  rw [cellsMean_one, cellsMean_one, cellsMean_one]

theorem avg_dfB_grouped_concrete :
    avg_dfB (analyze_dataB (load_dataB srcGrouped)) =
      [⟨"Cold", some 110, some 3, some 1⟩, ⟨"Hot", some 90, some 3, some 1⟩] := by
  rw [show analyze_dataB (load_dataB srcGrouped)
      = [addDerived rowCold1, addDerived rowCold2, addDerived rowHot1] from by decide]
  simp only [avg_dfB]
  rw [show groupKeys [addDerived rowCold1, addDerived rowCold2, addDerived rowHot1]
      = ["Cold", "Hot"] from by decide]
  simp only [List.map_cons, List.map_nil]
  rw [groupMeanCold, groupMeanHot]
  simp only [roundGroup, round2Cell, Option.map_some']
  rw [show round2 (110:ℚ) = 110 from by
        rw [round2_eval 110 11000 (by norm_num) (by norm_num)]; norm_num,
      show round2 (90:ℚ) = 90 from by
        rw [round2_eval 90 9000 (by norm_num) (by norm_num)]; norm_num,
      show round2 (3:ℚ) = 3 from by
        rw [round2_eval 3 300 (by norm_num) (by norm_num)]; norm_num,
      show round2 (1:ℚ) = 1 from by
        rw [round2_eval 1 100 (by norm_num) (by norm_num)]; norm_num]

theorem avg_dfA_grouped_concrete :
    avg_dfA (analyze_dataA (load_dataA srcGrouped)) =
      [⟨"Cold", some 110, some 3, some 1⟩, ⟨"Hot", some 90, some 3, some 1⟩] := by
  rw [show analyze_dataA (load_dataA srcGrouped)
      = [addDerived rowCold1, addDerived rowCold2, addDerived rowHot1] from by decide]
  simp only [avg_dfA]
  rw [show List.filter rowComplete
        [addDerived rowCold1, addDerived rowCold2, addDerived rowHot1]
      = [addDerived rowCold1, addDerived rowCold2, addDerived rowHot1] from by decide]
  rw [show groupKeys [addDerived rowCold1, addDerived rowCold2, addDerived rowHot1]
      = ["Cold", "Hot"] from by decide]
  simp only [List.map_cons, List.map_nil]
  rw [groupMeanCold, groupMeanHot]

theorem avg_dfA_thirds_concrete :
    avg_dfA (analyze_dataA (load_dataA srcGroupedThirds)) =
      [⟨"Cold", some (302 / 3), some 3, some 1⟩] := by
  rw [show analyze_dataA (load_dataA srcGroupedThirds)
      = [addDerived rowThird1, addDerived rowThird2, addDerived rowThird3] from by decide]
  simp only [avg_dfA]
  rw [show List.filter rowComplete
        [addDerived rowThird1, addDerived rowThird2, addDerived rowThird3]
      = [addDerived rowThird1, addDerived rowThird2, addDerived rowThird3] from by decide]
  rw [show groupKeys [addDerived rowThird1, addDerived rowThird2, addDerived rowThird3]
      = ["Cold"] from by decide]
  simp only [List.map_cons, List.map_nil]
  simp only [groupMean]
  rw [show List.filter (fun r => decide (r.type_full = some "Cold"))
        [addDerived rowThird1, addDerived rowThird2, addDerived rowThird3]
      = [addDerived rowThird1, addDerived rowThird2, addDerived rowThird3] from by decide]
  rw [show List.map (fun r => r.calories)
        [addDerived rowThird1, addDerived rowThird2, addDerived rowThird3]
      = [some (100:ℚ), some 101, some 101] from by decide]
  rw [show List.map (fun r => r.protein)
        [addDerived rowThird1, addDerived rowThird2, addDerived rowThird3]
      = [some (3:ℚ), some 3, some 3] from by decide]
  rw [show List.map (fun r => r.fat)
        [addDerived rowThird1, addDerived rowThird2, addDerived rowThird3]
      = [some (1:ℚ), some 1, some 1] from by decide]
  rw [cellsMean_triple, cellsMean_triple, cellsMean_triple]
  norm_num

/-- C6 (the code at the failing input): on a column with eleven distinct
values, variant A's categorical summarization — rendered under the title
"Top 10 '{col}' Values" — returns all eleven entries, while variant B's
returns ten; the untruncated output contradicts the step's own title. -/
theorem catCountsA_untruncated :
    (catCountsA elevenNames).length = 11 ∧ (catCountsB elevenNames).length = 10 := by
  decide

/-- C7 (amended): variant B's grouped aggregation reports, per type_full
group, two-decimal rounded means (every reported value is a multiple of
1/100) of calories, protein and fat, skipping missing cells only within the
computation; on the claim's example table both variants give mean calories
Cold 110 and Hot 90 — but variant A reports its means unrounded. -/
theorem avg_df_grouped_means (df : List Row) (g : GroupRow) :
    (g ∈ avg_dfB df →
      (∀ q : ℚ, g.calories = some q → (q * 100).den = 1) ∧
      (∀ q : ℚ, g.protein = some q → (q * 100).den = 1) ∧
      (∀ q : ℚ, g.fat = some q → (q * 100).den = 1)) ∧
    (avg_dfB (analyze_dataB (load_dataB srcGrouped))).map
        (fun gr => (gr.type_full, gr.calories))
      = [("Cold", some 110), ("Hot", some 90)] ∧
    (avg_dfA (analyze_dataA (load_dataA srcGrouped))).map
        (fun gr => (gr.type_full, gr.calories))
      = [("Cold", some 110), ("Hot", some 90)] := by
  refine ⟨?_, by rw [avg_dfB_grouped_concrete]; rfl, by rw [avg_dfA_grouped_concrete]; rfl⟩
  intro hg
  simp only [avg_dfB] at hg
  obtain ⟨k, hk, rfl⟩ := List.mem_map.mp hg
  simp only [roundGroup, round2Cell]
  refine ⟨?_, ?_, ?_⟩ <;> intro q hq
  · obtain ⟨x, hx, rfl⟩ := Option.map_eq_some'.mp hq
    exact round2_mul_hundred_den x
  · obtain ⟨x, hx, rfl⟩ := Option.map_eq_some'.mp hq
    exact round2_mul_hundred_den x
  · obtain ⟨x, hx, rfl⟩ := Option.map_eq_some'.mp hq
    exact round2_mul_hundred_den x

/-- Witness for C7 (amended) at the example table's Cold group. -/
theorem avg_df_grouped_means_witness : ((110 : ℚ) * 100).den = 1 :=
  ((avg_df_grouped_means (analyze_dataB (load_dataB srcGrouped))
      ⟨"Cold", some 110, some 3, some 1⟩).1
    (by rw [avg_dfB_grouped_concrete]; exact List.mem_cons_self _ _)).1 110 rfl

/-- C7 counterexample: on three Cold rows with calories 100, 101, 101,
variant A's aggregation reports the exact mean 302/3, which is not the
two-decimal rounding 100.67 the claim requires. -/
theorem avg_dfA_unrounded_cex :
    (avg_dfA (analyze_dataA (load_dataA srcGroupedThirds))).map (fun g => g.calories)
      = [some (302 / 3)] ∧
    round2 (302 / 3) = 10067 / 100 ∧ ((302 : ℚ) / 3 ≠ 10067 / 100) := by
  refine ⟨by rw [avg_dfA_thirds_concrete]; rfl, ?_, by norm_num⟩
  rw [round2_eval (302 / 3) 10067 (by norm_num) (by norm_num)]
  norm_num

/-- C8 (amended): variant A's threshold alert is a success with plural
phrasing for every nonzero count (including count 1) and a warning for count
0; variant B's alert is a success for every count — singular phrasing at
count 1, plural otherwise (including count 0) — and never a warning. -/
theorem thresholdAlert_phrasing (n c : Nat) :
    (0 < n → thresholdAlertA n c =
      ⟨Level.success, s!"🍽️ There are {n} cereals rated above {c}."⟩) ∧
    (n = 0 → thresholdAlertA n c =
      ⟨Level.warning, "😕 No cereals found above that rating."⟩) ∧
    (n = 1 → thresholdAlertB n c =
      ⟨Level.success, s!"🥣 There is {n} cereal rated above {c}."⟩) ∧
    (n ≠ 1 → thresholdAlertB n c =
      ⟨Level.success, s!"🥣 There are {n} cereals rated above {c}."⟩) := by
  refine ⟨fun h => ?_, fun h => ?_, fun h => ?_, fun h => ?_⟩ <;>
    simp [thresholdAlertA, thresholdAlertB, h]

/-- Witness for C8 (amended) at count 1, cutoff 40. -/
theorem thresholdAlert_phrasing_witness :
    thresholdAlertB 1 40 = ⟨Level.success, "🥣 There is 1 cereal rated above 40."⟩ :=
  (thresholdAlert_phrasing 1 40).2.2.1 rfl

/-- C8 counterexample: at count 0 variant B emits a success alert with the
plural phrasing, not the warning signal the claim requires for a zero
count. -/
theorem thresholdAlertB_zero_cex :
    thresholdAlertB 0 40 = ⟨Level.success, "🥣 There are 0 cereals rated above 40."⟩ ∧
    Level.success ≠ Level.warning :=
  ⟨by decide, by decide⟩

/-- C9 (amended): in variant A only the column-types step is individually
guarded — its failure becomes an error alert and the remaining steps still
run; a failure in any later statistics/table step of variant A, and in any
step of variant B, propagates and aborts the stage. -/
theorem analyzerSteps_guarding :
    (∀ m : String, analyzerStepsA (.fail m) .ok .ok .ok .ok =
      .ok [⟨Level.error, s!"Error displaying column types: {m}"⟩]) ∧
    (∀ (s1 : StepOutcome) (m : String) (s3 s4 s5 : StepOutcome),
      analyzerStepsA s1 (.fail m) s3 s4 s5 = .error m) ∧
    (∀ (s1 : StepOutcome) (m : String) (s4 s5 : StepOutcome),
      analyzerStepsA s1 .ok (.fail m) s4 s5 = .error m) ∧
    (∀ (s1 : StepOutcome) (m : String) (s5 : StepOutcome),
      analyzerStepsA s1 .ok .ok (.fail m) s5 = .error m) ∧
    (∀ (s1 : StepOutcome) (m : String),
      analyzerStepsA s1 .ok .ok .ok (.fail m) = .error m) ∧
    (∀ (m : String) (s2 s3 s4 s5 : StepOutcome),
      analyzerStepsB (.fail m) s2 s3 s4 s5 = .error m) ∧
    (∀ (m : String) (s3 s4 s5 : StepOutcome),
      analyzerStepsB .ok (.fail m) s3 s4 s5 = .error m) ∧
    (∀ (m : String) (s4 s5 : StepOutcome),
      analyzerStepsB .ok .ok (.fail m) s4 s5 = .error m) ∧
    (∀ (m : String) (s5 : StepOutcome),
      analyzerStepsB .ok .ok .ok (.fail m) s5 = .error m) ∧
    (∀ m : String, analyzerStepsB .ok .ok .ok .ok (.fail m) = .error m) :=
  ⟨fun _ => rfl, fun _ _ _ _ _ => rfl, fun _ _ _ _ => rfl, fun _ _ _ => rfl,
   fun _ _ => rfl, fun _ _ _ _ _ => rfl, fun _ _ _ _ => rfl, fun _ _ _ => rfl,
   fun _ _ => rfl, fun _ => rfl⟩

/-- C9 counterexample: a failure raised in the unguarded summary-statistics
step of variant A propagates instead of being converted into an alert,
aborting the remaining steps. -/
theorem analyzerStepsA_aborts_cex :
    analyzerStepsA .ok .ok (.fail "describe failed") .ok .ok
      = Except.error "describe failed" := rfl
